import Mathlib

/-!
Shallow embedding of the compliance-analysis engine of the poctl repository
(prometheus-operator/poctl): selector resolution (internal/k8sutil/k8sutil.go,
internal/analyzers/prometheus.go), RBAC verb checking, CRD coverage
(internal/analyzers/operator.go), the Alertmanager secret check
(internal/analyzers/prometheusagent.go, second file), the ServiceMonitor
analyzer (internal/analyzers/servicemonitor.go) and the two variants of the
overlap detector (internal/analyzers/overlapping.go, both files).

Cluster reads are modelled as total lookups into an explicit cluster-state
value; Go `nil` pointers are `Option`, Go errors are `Except String` or
explicit error constructors, Go maps are association lists in key-insertion
order (`mapAppend`), and a Go `range` over a map is parameterised by the key
iteration order, since the Go specification leaves that order undefined.
-/

namespace Poctl

/-- Rendering of a Go `[]string` by `fmt` `%v`: `[a b c]`. -/
def goSliceStr (xs : List String) : String :=
  "[" ++ String.intercalate " " xs ++ "]"

/-- Embeds `metav1.LabelSelectorRequirement`: key, operator, values. -/
structure LabelSelectorRequirement where
  key : String
  operator : String
  values : List String
deriving Repr, DecidableEq

/-- Embeds `metav1.LabelSelector`: matchLabels (a Go map, modelled as an association
list built with overwrite semantics) and matchExpressions. -/
structure LabelSelector where
  matchLabels : List (String × String)
  matchExpressions : List LabelSelectorRequirement
deriving Repr, DecidableEq

/-- Lookup in a Go `map[string]string` modelled as an association list. -/
def mapFind (m : List (String × String)) (k : String) : Option String :=
  (m.find? (fun e => e.1 == k)).map (fun e => e.2)

/-- Go map assignment `m[k] = v`: overwrite if present, append otherwise. -/
def mapPut (m : List (String × String)) (k v : String) : List (String × String) :=
  if m.any (fun e => e.1 == k) then
    m.map (fun e => if e.1 == k then (k, v) else e)
  else
    m ++ [(k, v)]

/-- Helper of `metav1.LabelSelectorAsMap` applied to the expression list, threading the
partially built map: `In` with exactly one value assigns `key = values[0]`;
`NotIn`, `Exists`, `DoesNotExist` and unknown operators fail. -/
def asMapExprs (m : List (String × String)) :
    List LabelSelectorRequirement → Except String (List (String × String))
  | [] => Except.ok m
  | expr :: rest =>
    if expr.operator == "In" then
      if expr.values.length != 1 then
        Except.error ("operator \x22" ++ expr.operator ++
          "\x22 without a single value cannot be converted into the old label selector format")
      else
        asMapExprs (mapPut m expr.key (expr.values.headD "")) rest
    else if expr.operator == "NotIn" || expr.operator == "Exists" ||
        expr.operator == "DoesNotExist" then
      Except.error ("operator \x22" ++ expr.operator ++
        "\x22 cannot be converted into the old label selector format")
    else
      Except.error ("\x22" ++ expr.operator ++ "\x22 is not a valid label selector operator")

/-- Embeds `metav1.LabelSelectorAsMap`: copy matchLabels into a fresh map, then fold
the matchExpressions (k8s.io/apimachinery, used by both copies of
`CheckResourceLabelSelectors`). -/
def labelSelectorAsMap (ls : LabelSelector) : Except String (List (String × String)) :=
  asMapExprs (ls.matchLabels.foldl (fun m e => mapPut m e.1 e.2) []) ls.matchExpressions

/-- Kubernetes label-selector requirement semantics (`labels.Requirement.Matches`):
`In` needs the key with a listed value, `NotIn` passes when the key is absent
or has an unlisted value, `Exists` and `DoesNotExist` test key presence. -/
def reqMatches (labels : List (String × String)) (r : LabelSelectorRequirement) : Bool :=
  match r.operator with
  | "In" =>
    match mapFind labels r.key with
    | some v => r.values.contains v
    | none => false
  | "NotIn" =>
    match mapFind labels r.key with
    | some v => !r.values.contains v
    | none => true
  | "Exists" => (mapFind labels r.key).isSome
  | "DoesNotExist" => (mapFind labels r.key).isNone
  | _ => false

/-- Full Kubernetes label-selector semantics: every matchLabels entry holds as
an equality and every matchExpression requirement holds. -/
def selectorMatches (ls : LabelSelector) (labels : List (String × String)) : Bool :=
  ls.matchLabels.all (fun e => mapFind labels e.1 == some e.2) &&
    ls.matchExpressions.all (reqMatches labels)

/-- Equality-map matching: what `labels.SelectorFromSet(labelMap)` selects. -/
def mapMatches (m : List (String × String)) (labels : List (String × String)) : Bool :=
  m.all (fun e => mapFind labels e.1 == some e.2)

/-- Validity of a requirement for `metav1.LabelSelectorAsSelector`: `In`/`NotIn`
need at least one value, `Exists`/`DoesNotExist` need none, other operator
strings are invalid. -/
def reqValid (r : LabelSelectorRequirement) : Bool :=
  match r.operator with
  | "In" => !r.values.isEmpty
  | "NotIn" => !r.values.isEmpty
  | "Exists" => r.values.isEmpty
  | "DoesNotExist" => r.values.isEmpty
  | _ => false

/-- Whether `metav1.LabelSelectorAsSelector` succeeds on the selector. -/
def labelSelectorValid (ls : LabelSelector) : Bool :=
  ls.matchExpressions.all reqValid

/-! ### RBAC verb verification

`checkClusterRoleRules` (internal/analyzers/prometheus.go) and
`CheckPrometheusClusterRoleRules` (internal/k8sutil/k8sutil.go) are textually
identical; one embedding covers both. Only `crb.RoleRef.Name` is read from the
binding, so the embedding takes that string. -/

/-- Embeds `rbacv1.PolicyRule`. -/
structure PolicyRule where
  apiGroups : List String
  resources : List String
  verbs : List String
  nonResourceURLs : List String
deriving Repr, DecidableEq

/-- Embeds `rbacv1.ClusterRole`: the rule list (the only field the checker reads). -/
structure ClusterRole where
  rules : List PolicyRule
deriving Repr, DecidableEq

/-- The verb set required for general resources. -/
def verbsToCheck : List String := ["get", "list", "watch"]

/-- Finding text for a configmaps entry without the get verb. -/
def configmapsMsg (roleRefName : String) : String :=
  "ClusterRole " ++ roleRefName ++ " does not include 'configmaps' with 'get' in its verbs"

/-- Finding text for missing verbs under an apiGroups entry (`%v` of the
accumulated missingVerbs slice). -/
def missingVerbsMsg (roleRefName : String) (missing : List String) : String :=
  "ClusterRole " ++ roleRefName ++ " is missing necessary verbs for APIGroups: " ++
    goSliceStr missing

/-- Finding text for a /metrics nonResourceURL without the get verb. -/
def metricsMsg (roleRefName : String) : String :=
  "ClusterRole " ++ roleRefName ++ " does not include 'get' verb for NonResourceURL '/metrics'"

/-- Body of the per-rule loop of `checkClusterRoleRules`. The state is the
pair (errs, missingVerbs); note that the source declares `missingVerbs`
outside the rule loop and never resets it, so it is threaded through. -/
def processRule (roleRefName : String) (st : List String × List String)
    (rule : PolicyRule) : List String × List String :=
  let stRes := rule.resources.foldl
    (fun (st : List String × List String) resource =>
      if resource == "configmaps" then
        if rule.verbs.contains "get" then st
        else (st.1 ++ [configmapsMsg roleRefName], st.2)
      else
        rule.apiGroups.foldl
          (fun (st : List String × List String) _ =>
            let missing := st.2 ++ verbsToCheck.filter (fun v => !rule.verbs.contains v)
            if missing.length > 0 then
              (st.1 ++ [missingVerbsMsg roleRefName missing], missing)
            else
              (st.1, missing))
          st)
    st
  let errs := rule.nonResourceURLs.foldl
    (fun (errs : List String) nonResource =>
      if nonResource == "/metrics" && !rule.verbs.contains "get" then
        errs ++ [metricsMsg roleRefName]
      else errs)
    stRes.1
  (errs, stRes.2)

/-- The finding list accumulated by `checkClusterRoleRules` over all rules. -/
def clusterRoleErrs (roleRefName : String) (cr : ClusterRole) : List String :=
  (cr.rules.foldl (processRule roleRefName) ([], [])).1

/-- Embeds `checkClusterRoleRules` / `CheckPrometheusClusterRoleRules`: aggregate all
findings into one newline-joined error, success when there are none. -/
def checkClusterRoleRules (roleRefName : String) (cr : ClusterRole) : Except String Unit :=
  let errs := clusterRoleErrs roleRefName cr
  if errs.length > 0 then
    Except.error ("multiple errors found:\n" ++ String.intercalate "\n" errs)
  else
    Except.ok ()

/-! ### Label-selector resolution entry point

`CheckResourceLabelSelectors` (internal/k8sutil/k8sutil.go) and
`checkResourceLabelSelectors` (internal/analyzers/prometheus.go) are textually
identical; one embedding covers both. The cluster state holds the concrete
objects of the five monitoring kinds; a list call filters the corresponding
list by namespace and by the equality map handed to the API
(`labels.SelectorFromSet(labelMap).String()`). The outcome records the result
together with the number of list calls issued. -/

/-- Resource-kind constant (identical in both source files). -/
def ServiceMonitor : String := "ServiceMonitor"

/-- Resource-kind constant (identical in both source files). -/
def PodMonitor : String := "PodMonitor"

/-- Resource-kind constant (identical in both source files). -/
def Probe : String := "Probe"

/-- Resource-kind constant (identical in both source files). -/
def ScrapeConfig : String := "ScrapeConfig"

/-- Resource-kind constant (identical in both source files). -/
def PrometheusRule : String := "PrometheusRule"

/-- A labelled, namespaced cluster object (name, namespace, labels). -/
structure KObj where
  name : String
  ns : String
  labels : List (String × String)
deriving Repr, DecidableEq

/-- The cluster's monitoring objects, one list per kind the selector entry
point can dispatch to. -/
structure SelectorClusterState where
  serviceMonitors : List KObj
  podMonitors : List KObj
  probes : List KObj
  scrapeConfigs : List KObj
  prometheusRules : List KObj
deriving Repr, DecidableEq

/-- The accessor's answer to a list call with an equality label map: objects of
the namespace whose labels satisfy every map entry. -/
def listWithMap (objs : List KObj) (ns : String) (m : List (String × String)) : List KObj :=
  objs.filter (fun o => o.ns == ns && mapMatches m o.labels)

/-- The objects of a namespace matching a selector under full Kubernetes
selector semantics — the claim-side notion of "the list of matching objects",
independent of the map conversion the code performs. -/
def matchingObjects (objs : List KObj) (ns : String) (ls : LabelSelector) : List KObj :=
  objs.filter (fun o => o.ns == ns && selectorMatches ls o.labels)

/-- Result of one run of the selector entry point, instrumented with the
number of list calls it issued. -/
structure CheckOutcome where
  result : Except String Unit
  listCalls : Nat
deriving Repr

/-- Embeds `CheckResourceLabelSelectors` / `checkResourceLabelSelectors`: nil selector
fails, present-but-empty passes, otherwise convert to an equality map (which
can fail) and dispatch on the resource kind to a single list call whose empty
answer is a no-match error. -/
def checkResourceLabelSelectors (st : SelectorClusterState)
    (labelSelector : Option LabelSelector) (resourceName ns : String) : CheckOutcome :=
  match labelSelector with
  | none => ⟨Except.error (resourceName ++ " selector is not defined"), 0⟩
  | some ls =>
    if ls.matchLabels.length == 0 && ls.matchExpressions.length == 0 then
      ⟨Except.ok (), 0⟩
    else
      match labelSelectorAsMap ls with
      | Except.error e =>
        ⟨Except.error ("invalid label selector format in " ++ resourceName ++ ": " ++ e), 0⟩
      | Except.ok labelMap =>
        if resourceName == ServiceMonitor then
          let serviceMonitors := listWithMap st.serviceMonitors ns labelMap
          if serviceMonitors.length == 0 then
            ⟨Except.error ("no ServiceMonitors match the provided selector in Prometheus " ++ ns), 1⟩
          else ⟨Except.ok (), 1⟩
        else if resourceName == PodMonitor then
          let podMonitors := listWithMap st.podMonitors ns labelMap
          if podMonitors.length == 0 then
            ⟨Except.error ("no PodMonitors match the provided selector in Prometheus " ++ ns), 1⟩
          else ⟨Except.ok (), 1⟩
        else if resourceName == Probe then
          let probes := listWithMap st.probes ns labelMap
          if probes.length == 0 then
            ⟨Except.error ("no Probes match the provided selector in Prometheus " ++ ns), 1⟩
          else ⟨Except.ok (), 1⟩
        else if resourceName == ScrapeConfig then
          let scrapeConfigs := listWithMap st.scrapeConfigs ns labelMap
          if scrapeConfigs.length == 0 then
            ⟨Except.error ("no ScrapeConfigs match the provided selector in Prometheus " ++ ns), 1⟩
          else ⟨Except.ok (), 1⟩
        else if resourceName == PrometheusRule then
          let promRules := listWithMap st.prometheusRules ns labelMap
          if promRules.length == 0 then
            ⟨Except.error ("no PrometheusRules match the provided selector in Prometheus " ++ ns), 1⟩
          else ⟨Except.ok (), 1⟩
        else ⟨Except.error ("unknown selector type: " ++ resourceName), 0⟩

/-- The object list the entry point's switch consults for a kind. -/
def kindObjs (st : SelectorClusterState) (kind : String) : List KObj :=
  if kind == ServiceMonitor then st.serviceMonitors
  else if kind == PodMonitor then st.podMonitors
  else if kind == Probe then st.probes
  else if kind == ScrapeConfig then st.scrapeConfigs
  else if kind == PrometheusRule then st.prometheusRules
  else []

/-- The no-match error text of the entry point's branch for a kind. -/
def noMatchMsg (kind ns : String) : String :=
  if kind == ServiceMonitor then
    "no ServiceMonitors match the provided selector in Prometheus " ++ ns
  else if kind == PodMonitor then
    "no PodMonitors match the provided selector in Prometheus " ++ ns
  else if kind == Probe then
    "no Probes match the provided selector in Prometheus " ++ ns
  else if kind == ScrapeConfig then
    "no ScrapeConfigs match the provided selector in Prometheus " ++ ns
  else if kind == PrometheusRule then
    "no PrometheusRules match the provided selector in Prometheus " ++ ns
  else ""

/-- Cluster state for the C1 counterexample: one ServiceMonitor labelled
a = x in namespace ns1. -/
def stC1 : SelectorClusterState :=
  ⟨[⟨"sm1", "ns1", [("a", "x")]⟩], [], [], [], []⟩

/-- Selector for the C1 counterexample: a single Exists requirement, which
Kubernetes accepts but `LabelSelectorAsMap` cannot convert. -/
def selC1 : LabelSelector := ⟨[], [⟨"a", "Exists", []⟩]⟩

/-! ### ServiceMonitor analyzer (internal/analyzers/servicemonitor.go) -/

/-- Typed accessor error: not-found versus any other error. -/
inductive KErr where
  | notFound
  | other (msg : String)
deriving Repr, DecidableEq

/-- Embeds `corev1.ServicePort`: name and numeric port. -/
structure ServicePort where
  name : String
  port : Int
deriving Repr, DecidableEq

/-- Embeds `corev1.Service`: namespace, name, labels and ports. -/
structure Service where
  ns : String
  name : String
  labels : List (String × String)
  ports : List ServicePort
deriving Repr, DecidableEq

/-- Embeds `monitoringv1.ServiceMonitor`: namespace, name, selector, and the `Port`
field of each entry of `Spec.Endpoints`. -/
structure ServiceMonitorObj where
  ns : String
  name : String
  selector : LabelSelector
  endpoints : List String
deriving Repr, DecidableEq

/-- The accessor's answer to listing Services of a namespace with a selector
string produced by `metav1.FormatLabelSelector`: full selector semantics. -/
def listServices (services : List Service) (ns : String) (ls : LabelSelector) :
    List Service :=
  services.filter (fun s => s.ns == ns && selectorMatches ls s.labels)

/-- Error text of the selector-presence step of `RunServiceMonitorAnalyzer`. -/
def noSelectorMsg (name ns : String) : String :=
  "ServiceMonitor " ++ name ++ " in namespace " ++ ns ++ " does not have a selector"

/-- Error text when no Services match the ServiceMonitor selector. -/
def noServicesMsg (name ns : String) : String :=
  "ServiceMonitor " ++ name ++ " in namespace " ++ ns ++ " has no services matching the selector"

/-- Error text when no matched Service exposes an endpoint's port name. -/
def noPortMsg (name ns port : String) : String :=
  "ServiceMonitor " ++ name ++ " in namespace " ++ ns ++ " has no services with port " ++ port

/-- Embeds `evaluatePortMatches`: for each endpoint port name, some matched Service
must expose a port of that name; the first uncovered endpoint is reported. -/
def evaluatePortMatches (sm : ServiceMonitorObj) (svcs : List Service)
    (name ns : String) : Except String Unit :=
  go sm.endpoints
where
  go : List String → Except String Unit
  | [] => Except.ok ()
  | p :: rest =>
    if svcs.any (fun s => s.ports.any (fun sp => sp.name == p)) then go rest
    else Except.error (noPortMsg name ns p)

/-- One of the two identical conditional blocks of
`RunServiceMonitorAnalyzer`: list Services by the monitor's selector, fail if
none match, otherwise check the endpoint ports. -/
def smSelectorBlock (services : List Service) (sm : ServiceMonitorObj)
    (name ns : String) : Except String Unit :=
  let svcs := listServices services ns sm.selector
  if svcs.length == 0 then Except.error (noServicesMsg name ns)
  else evaluatePortMatches sm svcs name ns

/-- Body of `RunServiceMonitorAnalyzer` once the monitor is fetched:
hard-fail when both matchLabels and matchExpressions are empty, then run the
matchLabels block and the matchExpressions block (each only when its field is
non-empty). -/
def smAfterFetch (services : List Service) (sm : ServiceMonitorObj)
    (name ns : String) : Except String Unit :=
  if sm.selector.matchLabels.length == 0 && sm.selector.matchExpressions.length == 0 then
    Except.error (noSelectorMsg name ns)
  else
    match (if sm.selector.matchLabels.length > 0 then
        smSelectorBlock services sm name ns else Except.ok ()) with
    | Except.error e => Except.error e
    | Except.ok _ =>
      if sm.selector.matchExpressions.length > 0 then
        smSelectorBlock services sm name ns
      else Except.ok ()

/-- Embeds `RunServiceMonitorAnalyzer`: fetch the monitor (not-found and other get
errors are terminal), then analyze it. -/
def runServiceMonitorAnalyzer (services : List Service)
    (getResult : Except KErr ServiceMonitorObj) (name ns : String) :
    Except String Unit :=
  match getResult with
  | Except.error KErr.notFound =>
    Except.error ("ServiceMonitor " ++ name ++ " not found in namespace " ++ ns)
  | Except.error (KErr.other e) =>
    Except.error ("error while getting ServiceMonitor: " ++ e)
  | Except.ok sm => smAfterFetch services sm name ns

/-! ### CRD coverage (internal/analyzers/operator.go)

Cluster reads are modelled as a total lookup of a CRD's plural and singular
names; `internal/crds` is not under src/, so its registry constant is
modelled from the spec. -/

/-- Embeds `crd.Spec.Names`: the plural and singular names of a CRD. -/
structure CRDNames where
  plural : String
  singular : String
deriving Repr, DecidableEq

/-- Modelled from the spec: the required CRD registry `crds.List` of the
missing package internal/crds — §3 RequiredCRDSet of the spec, which also
matches the identical list in the cmd package. -/
def crdsList : List String :=
  ["alertmanagers", "alertmanagerconfigs", "podmonitors", "probes",
   "prometheusagents", "prometheuses", "prometheusrules", "scrapeconfigs",
   "servicemonitors", "thanosrulers"]

/-- The coverage test of `analyzeCRDRules`: the rule's resources contain the
plural, the singular, or either with the "/finalizers" suffix. -/
def ruleCoversCRD (rule : PolicyRule) (names : CRDNames) : Bool :=
  rule.resources.contains names.plural || rule.resources.contains names.singular ||
    rule.resources.contains (names.plural ++ "/finalizers") ||
    rule.resources.contains (names.singular ++ "/finalizers")

/-- Error text for the first uncovered CRD. -/
def crdMissingMsg (roleRefName plural : String) : String :=
  "ClusterRole " ++ roleRefName ++ " does not have " ++ plural ++ " in its rules"

/-- Loop of `analyzeCRDRules` over a registry tail: fetch each CRD (recorded
in the second component), stop at the first one the rule does not cover. -/
def analyzeCRDRulesGo (lookup : String → CRDNames) (roleRefName : String)
    (rule : PolicyRule) (fetched : List String) :
    List String → Except String Unit × List String
  | [] => (Except.ok (), fetched)
  | c :: rest =>
    let names := lookup c
    if ruleCoversCRD rule names then
      analyzeCRDRulesGo lookup roleRefName rule (fetched ++ [c]) rest
    else
      (Except.error (crdMissingMsg roleRefName names.plural), fetched ++ [c])

/-- Embeds `analyzeCRDRules`: walk the whole registry, instrumented with the list of
registry entries fetched from the cluster. -/
def analyzeCRDRules (lookup : String → CRDNames) (roleRefName : String)
    (rule : PolicyRule) : Except String Unit × List String :=
  analyzeCRDRulesGo lookup roleRefName rule [] crdsList

/-! ### Alertmanager analyzer (internal/analyzers/prometheusagent.go, second
file of the pair) -/

/-- Embeds `corev1.Secret`: its data map. -/
structure Secret where
  data : List (String × String)
deriving Repr, DecidableEq

/-- The fields of `monitoringv1.Alertmanager` the analyzer reads. The two
pointer-valued configuration fields only matter through nil-ness. -/
structure AlertmanagerObj where
  name : String
  serviceAccountName : String
  configSecret : String
  hasConfigSelector : Bool
  hasConfiguration : Bool
  configNsSelector : Option LabelSelector
deriving Repr, DecidableEq

/-- Abbreviated stand-in for Go's `%s` rendering of a `*metav1.LabelSelector`
inside error texts; no claim inspects these texts. -/
def selGoString (ls : LabelSelector) : String :=
  "&LabelSelector " ++ goSliceStr (ls.matchLabels.map (fun e => e.1 ++ ":" ++ e.2)) ++
    " " ++ goSliceStr (ls.matchExpressions.map (fun r =>
      r.key ++ " " ++ r.operator ++ " " ++ goSliceStr r.values))

/-- Embeds `CheckResourceNamespaceSelectors` (internal/k8sutil/k8sutil.go): nil and
present-but-empty selectors pass; otherwise convert to an equality map and
list namespaces with it, zero matches being an error. -/
def checkResourceNamespaceSelectors (namespaces : List KObj)
    (labelSelector : Option LabelSelector) : Except String Unit :=
  match labelSelector with
  | none => Except.ok ()
  | some ls =>
    if ls.matchLabels.length == 0 && ls.matchExpressions.length == 0 then
      Except.ok ()
    else
      match labelSelectorAsMap ls with
      | Except.error e =>
        Except.error ("invalid label selector format in " ++ selGoString ls ++ ": " ++ e)
      | Except.ok labelMap =>
        if (namespaces.filter (fun o => mapMatches labelMap o.labels)).length == 0 then
          Except.error ("no namespaces match the selector " ++ selGoString ls)
        else Except.ok ()

/-- Embeds `checkAlertmanagerSecret`: fetch the secret, fail when the get fails,
when its data map is empty, or when the expected key is absent. -/
def checkAlertmanagerSecret (getSecret : String → String → Except String Secret)
    (secretName ns secretData : String) : Except String Unit :=
  match getSecret ns secretName with
  | Except.error e =>
    Except.error ("failed to get alertmanager secret " ++ secretName ++ " " ++ e)
  | Except.ok s =>
    if s.data.length == 0 then
      Except.error ("alertmanager Secret " ++ secretName ++ " is empty")
    else if (s.data.find? (fun kv => kv.1 == secretData)).isSome then
      Except.ok ()
    else
      Except.error ("the " ++ secretData ++ " key not found in Secret " ++ secretName)

/-- Cluster-state slice consumed by `RunAlertmanagerAnalyzer`: the get result
for the requested Alertmanager, the service-account get, the secret get and
the namespace list. -/
structure AMState where
  amGet : Except KErr AlertmanagerObj
  saGet : String → String → Except String Unit
  getSecret : String → String → Except String Secret
  namespaces : List KObj

/-- The secret-checking step of `RunAlertmanagerAnalyzer`: only runs when
neither AlertmanagerConfigSelector nor AlertmanagerConfiguration is set; a
non-empty ConfigSecret is checked for "alertmanager.yaml", otherwise the
generated default secret is checked for "alertmanager.yaml.gz". -/
def amSecretStep (st : AMState) (am : AlertmanagerObj) (ns : String) :
    Except String Unit :=
  if !am.hasConfigSelector && !am.hasConfiguration then
    if am.configSecret != "" then
      match checkAlertmanagerSecret st.getSecret am.configSecret ns "alertmanager.yaml" with
      | Except.error e => Except.error ("error checking Alertmanager secret: " ++ e)
      | Except.ok _ => Except.ok ()
    else
      match checkAlertmanagerSecret st.getSecret
          ("alertmanager-" ++ am.name ++ "-generated") ns "alertmanager.yaml.gz" with
      | Except.error e => Except.error ("error checking Alertmanager secret: " ++ e)
      | Except.ok _ => Except.ok ()
  else Except.ok ()

/-- The namespace-selector step of `RunAlertmanagerAnalyzer`: only runs when
AlertmanagerConfigNamespaceSelector is set. -/
def amConfigNsStep (st : AMState) (am : AlertmanagerObj) : Except String Unit :=
  match am.configNsSelector with
  | none => Except.ok ()
  | some _ =>
    match checkResourceNamespaceSelectors st.namespaces am.configNsSelector with
    | Except.error e =>
      Except.error ("AlertmanagerConfigNamespaceSelector is not properly defined: " ++ e)
    | Except.ok _ => Except.ok ()

/-- Embeds `RunAlertmanagerAnalyzer`: fetch the Alertmanager, fetch its service
account, run the secret step, then the namespace-selector step. -/
def runAlertmanagerAnalyzer (st : AMState) (name ns : String) : Except String Unit :=
  match st.amGet with
  | Except.error KErr.notFound =>
    Except.error ("alertmanager " ++ name ++ " not found in namespace " ++ ns)
  | Except.error (KErr.other e) =>
    Except.error ("error while getting Alertmanager: " ++ e)
  | Except.ok am =>
    match st.saGet ns am.serviceAccountName with
    | Except.error e => Except.error ("failed to list ServiceAcounts: " ++ e)
    | Except.ok _ =>
      match amSecretStep st am ns with
      | Except.error e => Except.error e
      | Except.ok _ => amConfigNsStep st am

/-! ### Overlap detector (internal/analyzers/overlapping.go)

The repository carries two implementations. Variant 1 accumulates monitor
names in maps shared across all monitors of a type and scans the buckets
after all monitors were processed; variant 2 creates a fresh map per monitor
and flags as soon as a bucket's size exceeds one during accumulation. Go maps
are association lists in key-insertion order; the post-accumulation scan is a
Go `range` over a map, whose iteration order the Go specification leaves
undefined, so the scan takes the order as a parameter. -/

/-- Embeds `corev1.Pod`: namespace, name and labels. -/
structure Pod where
  ns : String
  name : String
  labels : List (String × String)
deriving Repr, DecidableEq

/-- Embeds `monitoringv1.PodMonitor`: namespace, name, selector and the `Port` field
of each entry of `Spec.PodMetricsEndpoints`. -/
structure PodMonitorObj where
  ns : String
  name : String
  selector : LabelSelector
  podMetricsEndpoints : List String
deriving Repr, DecidableEq

/-- A Go `map[string][]string` in key-insertion order. -/
abbrev GoMap : Type := List (String × List String)

/-- Go map read `m[k]` (a missing key reads as the empty slice). -/
def mapGet : GoMap → String → List String
  | [], _ => []
  | e :: rest, k => if e.1 == k then e.2 else mapGet rest k

/-- Go `m[k] = append(m[k], v)`. -/
def mapAppend : GoMap → String → String → GoMap
  | [], k, v => [(k, [v])]
  | e :: rest, k, v =>
    if e.1 == k then (e.1, e.2 ++ [v]) :: rest else e :: mapAppend rest k v

/-- The keys of a Go map (in insertion order). -/
def mapKeys (m : GoMap) : List String := m.map (fun e => e.1)

/-- Error text for a selector `LabelSelectorAsSelector` rejects; the
underlying converter message is abbreviated, identically in both variants. -/
def invalidSelMsg (kind ns name : String) : String :=
  "invalid selector in " ++ kind ++ " " ++ ns ++ "/" ++ name ++ ": invalid label selector"

/-- The Services of the monitor's namespace matching its selector (the list
call both variants issue per ServiceMonitor). -/
def smMatchedServices (services : List Service) (sm : ServiceMonitorObj) : List Service :=
  services.filter (fun s => s.ns == sm.ns && selectorMatches sm.selector s.labels)

/-- The overlap key for a Service port: `NAMESPACE/NAME:PORTNUMBER`. -/
def svcPortKey (s : Service) (p : ServicePort) : String :=
  s.ns ++ "/" ++ s.name ++ ":" ++ toString p.port

/-- The key sequence a ServiceMonitor feeds into the overlap map: every port
of every matched Service, in source order. The monitor's own endpoints play
no role here. -/
def smInsertKeys (services : List Service) (sm : ServiceMonitorObj) : List String :=
  (smMatchedServices services sm).flatMap (fun s => s.ports.map (svcPortKey s))

/-- The Pods of the monitor's namespace matching its selector. -/
def pmMatchedPods (pods : List Pod) (pm : PodMonitorObj) : List Pod :=
  pods.filter (fun p => p.ns == pm.ns && selectorMatches pm.selector p.labels)

/-- The overlap key for a Pod and an endpoint port name: `NAMESPACE/NAME:PORT`. -/
def podPortKey (p : Pod) (port : String) : String :=
  p.ns ++ "/" ++ p.name ++ ":" ++ port

/-- The key sequence a PodMonitor feeds into the overlap map: every
podMetricsEndpoints port of every matched Pod, in source order. -/
def pmInsertKeys (pods : List Pod) (pm : PodMonitorObj) : List String :=
  (pmMatchedPods pods pm).flatMap (fun p => pm.podMetricsEndpoints.map (podPortKey p))

/-- Append `name` under each key of `ks` in turn. -/
def accumulate (m : GoMap) (name : String) : List String → GoMap
  | [] => m
  | k :: ks => accumulate (mapAppend m k name) name ks

/-- Variant 1 `checkOverlappingServiceMonitors`: reject an invalid selector,
otherwise extend the shared map with this monitor's contributions. -/
def checkOverlappingServiceMonitorsV1 (services : List Service)
    (sm : ServiceMonitorObj) (m : GoMap) : Except String GoMap :=
  if !labelSelectorValid sm.selector then
    Except.error (invalidSelMsg "ServiceMonitor" sm.ns sm.name)
  else
    Except.ok (accumulate m sm.name (smInsertKeys services sm))

/-- Variant 1 `checkOverlappingPodMonitors`. -/
def checkOverlappingPodMonitorsV1 (pods : List Pod)
    (pm : PodMonitorObj) (m : GoMap) : Except String GoMap :=
  if !labelSelectorValid pm.selector then
    Except.error (invalidSelMsg "PodMonitor" pm.ns pm.name)
  else
    Except.ok (accumulate m pm.name (pmInsertKeys pods pm))

/-- Variant 1 ServiceMonitor loop of `RunOverlappingAnalyzer`: collect
per-monitor errors, thread the shared map. -/
def processSMsV1 (services : List Service) :
    List ServiceMonitorObj → List String × GoMap → List String × GoMap
  | [], acc => acc
  | sm :: rest, (errs, m) =>
    match checkOverlappingServiceMonitorsV1 services sm m with
    | Except.ok m2 => processSMsV1 services rest (errs, m2)
    | Except.error e => processSMsV1 services rest (errs ++ [e], m)

/-- Variant 1 PodMonitor loop of `RunOverlappingAnalyzer`. -/
def processPMsV1 (pods : List Pod) :
    List PodMonitorObj → List String × GoMap → List String × GoMap
  | [], acc => acc
  | pm :: rest, (errs, m) =>
    match checkOverlappingPodMonitorsV1 pods pm m with
    | Except.ok m2 => processPMsV1 pods rest (errs, m2)
    | Except.error e => processPMsV1 pods rest (errs ++ [e], m)

/-- Variant 1 finding text for a service/port key. -/
def svcOverlapMsg (k : String) (names : List String) : String :=
  "Overlapping ServiceMonitors found for service/port " ++ k ++ ": " ++ goSliceStr names

/-- Variant 1 finding text for a pod/port key. -/
def podOverlapMsg (k : String) (names : List String) : String :=
  "Overlapping PodMonitors found for pod/port " ++ k ++ ": " ++ goSliceStr names

/-- The post-accumulation scan of variant 1: a Go `range` over the bucket
map in the given key iteration order, emitting a finding for every bucket
holding more than one name. -/
def scanOverlaps (m : GoMap) (order : List String)
    (msgOf : String → List String → String) : List String :=
  order.filterMap (fun k =>
    if (mapGet m k).length > 1 then some (msgOf k (mapGet m k)) else none)

/-- The shared ServiceMonitor bucket map of variant 1 after all
ServiceMonitors were processed. -/
def smBuckets (services : List Service) (sms : List ServiceMonitorObj) : GoMap :=
  (processSMsV1 services sms ([], [])).2

/-- The shared PodMonitor bucket map of variant 1. -/
def pmBuckets (pods : List Pod) (pms : List PodMonitorObj) : GoMap :=
  (processPMsV1 pods pms ([], [])).2

/-- The overlap findings of variant 1 with the canonical (insertion-order)
scan of both bucket maps: ServiceMonitor findings then PodMonitor findings. -/
def overlapFindingsV1 (services : List Service) (pods : List Pod)
    (sms : List ServiceMonitorObj) (pms : List PodMonitorObj) : List String :=
  scanOverlaps (smBuckets services sms) (mapKeys (smBuckets services sms)) svcOverlapMsg ++
    scanOverlaps (pmBuckets pods pms) (mapKeys (pmBuckets pods pms)) podOverlapMsg

/-- The flag-during-accumulation loop of variant 2 over a key sequence: the
monitor's own fresh map, emitting a finding (with the bucket's current
content) each time a bucket's size exceeds one. -/
def v2Go (msgOf : String → List String → String) (name : String)
    (acc : List String × GoMap) : List String → List String × GoMap
  | [] => acc
  | k :: ks =>
    let m2 := mapAppend acc.2 k name
    if (mapGet m2 k).length > 1 then
      v2Go msgOf name (acc.1 ++ [msgOf k (mapGet m2 k)], m2) ks
    else
      v2Go msgOf name (acc.1, m2) ks

/-- The findings variant 2 accumulates for one ServiceMonitor. -/
def smV2Findings (services : List Service) (sm : ServiceMonitorObj) : List String :=
  (v2Go svcOverlapMsg sm.name ([], []) (smInsertKeys services sm)).1

/-- The findings variant 2 accumulates for one PodMonitor. In the source the
message text of this loop also says "Overlapping ServiceMonitors found for
service/port", a copy-paste the embedding reproduces. -/
def pmV2Findings (pods : List Pod) (pm : PodMonitorObj) : List String :=
  (v2Go svcOverlapMsg pm.name ([], []) (pmInsertKeys pods pm)).1

/-- Variant 2 `checkOverlappingServiceMonitors`. -/
def checkOverlappingServiceMonitorsV2 (services : List Service)
    (sm : ServiceMonitorObj) : Except String Unit :=
  if !labelSelectorValid sm.selector then
    Except.error (invalidSelMsg "ServiceMonitor" sm.ns sm.name)
  else
    let overlapErrs := smV2Findings services sm
    if overlapErrs.length > 0 then
      Except.error (String.intercalate "\n" overlapErrs)
    else Except.ok ()

/-- Variant 2 `checkOverlappingPodMonitors`. -/
def checkOverlappingPodMonitorsV2 (pods : List Pod)
    (pm : PodMonitorObj) : Except String Unit :=
  if !labelSelectorValid pm.selector then
    Except.error (invalidSelMsg "PodMonitor" pm.ns pm.name)
  else
    let overlapErrs := pmV2Findings pods pm
    if overlapErrs.length > 0 then
      Except.error (String.intercalate "\n" overlapErrs)
    else Except.ok ()

/-- The overlap findings of variant 2 over a whole run (the per-monitor
finding lists of valid-selector monitors, in monitor order). -/
def overlapFindingsV2 (services : List Service) (pods : List Pod)
    (sms : List ServiceMonitorObj) (pms : List PodMonitorObj) : List String :=
  sms.flatMap (fun sm =>
      if labelSelectorValid sm.selector then smV2Findings services sm else []) ++
    pms.flatMap (fun pm =>
      if labelSelectorValid pm.selector then pmV2Findings pods pm else [])

/-- Result of a monitor list call. The typed client interface can return a
nil pointer together with a NotFound error (the generated fake client, used
by the repository's tests, does exactly that); `notFound` models that case. -/
inductive ListOutcome (α : Type) where
  | ok (items : List α)
  | notFound
  | failed (msg : String)
deriving Repr

/-- The Go list pointer after the error filter: nil on NotFound. -/
def listItems {α : Type} : ListOutcome α → Option (List α)
  | ListOutcome.ok items => some items
  | ListOutcome.notFound => none
  | ListOutcome.failed _ => none

/-- The cluster state a run of the overlap analyzer consumes. -/
structure OverlapState where
  smList : ListOutcome ServiceMonitorObj
  pmList : ListOutcome PodMonitorObj
  services : List Service
  pods : List Pod

/-- Outcome of a run: success, an error value, or a runtime panic. -/
inductive RunOutcome where
  | ok
  | err (msg : String)
  | panicked (msg : String)
deriving Repr, DecidableEq

/-- The Go runtime's nil-dereference panic text. -/
def nilDerefMsg : String :=
  "runtime error: invalid memory address or nil pointer dereference"

/-- Variant 1 `RunOverlappingAnalyzer`: list both monitor kinds (non-NotFound
errors are terminal), succeed when both lists are nil or empty, then loop
over `serviceMonitors.Items` and `podMonitors.Items` — a nil pointer here is
a runtime panic — and finally scan both shared maps in the given iteration
orders, aggregating everything into one error. -/
def runOverlappingV1 (st : OverlapState) (svcOrder podOrder : List String) :
    RunOutcome :=
  match st.smList with
  | ListOutcome.failed e => RunOutcome.err e
  | _ =>
    match st.pmList with
    | ListOutcome.failed e => RunOutcome.err e
    | _ =>
      let smOpt := listItems st.smList
      let pmOpt := listItems st.pmList
      if (smOpt.isNone || (smOpt.getD []).length == 0) &&
          (pmOpt.isNone || (pmOpt.getD []).length == 0) then
        RunOutcome.ok
      else
        match smOpt with
        | none => RunOutcome.panicked nilDerefMsg
        | some sms =>
          let resSM := processSMsV1 st.services sms ([], [])
          match pmOpt with
          | none => RunOutcome.panicked nilDerefMsg
          | some pms =>
            let resPM := processPMsV1 st.pods pms ([], [])
            let overlapErrs := resSM.1 ++ resPM.1 ++
              scanOverlaps resSM.2 svcOrder svcOverlapMsg ++
              scanOverlaps resPM.2 podOrder podOverlapMsg
            if overlapErrs.length > 0 then
              RunOutcome.err ("multiple issues found:\n" ++
                String.intercalate "\n" overlapErrs)
            else RunOutcome.ok

/-- Variant 2 ServiceMonitor loop: collect each monitor's error text. -/
def processSMsV2 (services : List Service) :
    List ServiceMonitorObj → List String → List String
  | [], errs => errs
  | sm :: rest, errs =>
    match checkOverlappingServiceMonitorsV2 services sm with
    | Except.ok _ => processSMsV2 services rest errs
    | Except.error e => processSMsV2 services rest (errs ++ [e])

/-- Variant 2 PodMonitor loop. -/
def processPMsV2 (pods : List Pod) :
    List PodMonitorObj → List String → List String
  | [], errs => errs
  | pm :: rest, errs =>
    match checkOverlappingPodMonitorsV2 pods pm with
    | Except.ok _ => processPMsV2 pods rest errs
    | Except.error e => processPMsV2 pods rest (errs ++ [e])

/-- Variant 2 `RunOverlappingAnalyzer`: same listing shell as variant 1, but
no post-accumulation scan — only the per-monitor error texts aggregate. -/
def runOverlappingV2 (st : OverlapState) : RunOutcome :=
  match st.smList with
  | ListOutcome.failed e => RunOutcome.err e
  | _ =>
    match st.pmList with
    | ListOutcome.failed e => RunOutcome.err e
    | _ =>
      let smOpt := listItems st.smList
      let pmOpt := listItems st.pmList
      if (smOpt.isNone || (smOpt.getD []).length == 0) &&
          (pmOpt.isNone || (pmOpt.getD []).length == 0) then
        RunOutcome.ok
      else
        match smOpt with
        | none => RunOutcome.panicked nilDerefMsg
        | some sms =>
          let smErrs := processSMsV2 st.services sms []
          match pmOpt with
          | none => RunOutcome.panicked nilDerefMsg
          | some pms =>
            let overlapErrs := processPMsV2 st.pods pms smErrs
            if overlapErrs.length > 0 then
              RunOutcome.err ("multiple issues found:\n" ++
                String.intercalate "\n" overlapErrs)
            else RunOutcome.ok

/-- The per-monitor bucket map variant 2 builds for one ServiceMonitor. -/
def smLocalBuckets (services : List Service) (sm : ServiceMonitorObj) : GoMap :=
  accumulate [] sm.name (smInsertKeys services sm)

/-- The per-monitor bucket map variant 2 builds for one PodMonitor. -/
def pmLocalBuckets (pods : List Pod) (pm : PodMonitorObj) : GoMap :=
  accumulate [] pm.name (pmInsertKeys pods pm)

/-- The keys of a bucket map holding more than one accumulated name. -/
def flaggedKeys (m : GoMap) : List String :=
  (m.filter (fun e => e.2.length > 1)).map (fun e => e.1)

/-- Reference characterization of a shared bucket: each monitor contributes
its name once per occurrence of the key in its key sequence, in monitor
processing order. -/
def bucketNames (contribs : List (String × List String)) (k : String) : List String :=
  contribs.flatMap (fun c => List.replicate (c.2.count k) c.1)

/-- The (name, key-sequence) contributions of the valid-selector
ServiceMonitors, in processing order. -/
def smContribs (services : List Service) (sms : List ServiceMonitorObj) :
    List (String × List String) :=
  sms.filterMap (fun sm =>
    if labelSelectorValid sm.selector then
      some (sm.name, smInsertKeys services sm)
    else none)

/-- The contributions of the valid-selector PodMonitors. -/
def pmContribs (pods : List Pod) (pms : List PodMonitorObj) :
    List (String × List String) :=
  pms.filterMap (fun pm =>
    if labelSelectorValid pm.selector then
      some (pm.name, pmInsertKeys pods pm)
    else none)

/-- Fold a contribution list into a bucket map. -/
def bucketsOf (m : GoMap) : List (String × List String) → GoMap
  | [] => m
  | c :: cs => bucketsOf (accumulate m c.1 c.2) cs

/-- Selector app = x shared by the concrete overlap scenarios. -/
def selApp : LabelSelector := ⟨[("app", "x")], []⟩

/-- Two ServiceMonitors of namespace test, both selecting app = x, both with
a single endpoint referencing port name web. -/
def smsOv : List ServiceMonitorObj :=
  [⟨"test", "sm1", selApp, ["web"]⟩, ⟨"test", "sm2", selApp, ["web"]⟩]

/-- One Service labelled app = x exposing port http/80. -/
def servicesOv1 : List Service := [⟨"test", "svc1", [("app", "x")], [⟨"http", 80⟩]⟩]

/-- One Service labelled app = x exposing only port metrics/9090 — a port no
monitor endpoint references. -/
def servicesOv5 : List Service := [⟨"test", "svc1", [("app", "x")], [⟨"metrics", 9090⟩]⟩]

/-- Two Services labelled app = x with distinct ports, giving two distinct
overlap keys. -/
def servicesOv8 : List Service :=
  [⟨"test", "svc1", [("app", "x")], [⟨"http", 80⟩]⟩,
   ⟨"test", "svc2", [("app", "x")], [⟨"http", 8080⟩]⟩]

/-- A Service whose port list repeats the same numeric port, so a single
monitor contributes its key twice. -/
def servicesDupPort : List Service :=
  [⟨"test", "svcw", [("app", "y")], [⟨"a", 80⟩, ⟨"b", 80⟩]⟩]

/-- A monitor selecting the duplicate-port Service. -/
def smDupPort : ServiceMonitorObj := ⟨"test", "smw", ⟨[("app", "y")], []⟩, []⟩

end Poctl

namespace Poctl

/-- C10: a ClusterRole with no rules passes vacuously, and in general the
checker returns an error exactly when at least one finding was recorded. -/
theorem checkClusterRoleRules_empty_and_error_iff (roleRefName : String) (cr : ClusterRole) :
    (cr.rules = [] →
      clusterRoleErrs roleRefName cr = [] ∧
        checkClusterRoleRules roleRefName cr = Except.ok ()) ∧
    ((∃ e, checkClusterRoleRules roleRefName cr = Except.error e) ↔
      clusterRoleErrs roleRefName cr ≠ []) := by
  constructor
  · intro h
    simp [clusterRoleErrs, checkClusterRoleRules, h]
  · constructor
    · rintro ⟨e, he⟩
      intro hnil
      simp [checkClusterRoleRules, hnil] at he
    · intro hne
      refine ⟨"multiple errors found:\n" ++
        String.intercalate "\n" (clusterRoleErrs roleRefName cr), ?_⟩
      have hlen : (clusterRoleErrs roleRefName cr).length > 0 := by
        cases h : clusterRoleErrs roleRefName cr with
        | nil => exact absurd h hne
        | cons a l => simp [h]
      simp [checkClusterRoleRules, hlen]

/-- Witness for C10 at a concrete empty role. -/
theorem checkClusterRoleRules_empty_witness :
    clusterRoleErrs "prometheus" ⟨[]⟩ = [] ∧
      checkClusterRoleRules "prometheus" ⟨[]⟩ = Except.ok () :=
  (checkClusterRoleRules_empty_and_error_iff "prometheus" ⟨[]⟩).1 rfl

/-- C1 counterexample: a selector with criteria (an Exists requirement) in a
state where an object of the kind matches it in the namespace, yet the entry
point returns an invalid-format error rather than success, because
`LabelSelectorAsMap` cannot convert the requirement. -/
theorem checkResourceLabelSelectors_claim_false :
    selC1.matchExpressions ≠ [] ∧
    matchingObjects stC1.serviceMonitors "ns1" selC1 ≠ [] ∧
    (checkResourceLabelSelectors stC1 (some selC1) "ServiceMonitor" "ns1").result =
      Except.error ("invalid label selector format in ServiceMonitor: " ++
        "operator \x22Exists\x22 cannot be converted into the old label selector format") ∧
    (checkResourceLabelSelectors stC1 (some selC1) "ServiceMonitor" "ns1").result ≠
      Except.ok () := by
  refine ⟨by decide, by decide, rfl, ?_⟩
  intro h
  rw [show (checkResourceLabelSelectors stC1 (some selC1) "ServiceMonitor" "ns1").result =
    Except.error ("invalid label selector format in ServiceMonitor: " ++
      "operator \x22Exists\x22 cannot be converted into the old label selector format")
    from rfl] at h
  exact Except.noConfusion h

/-- C1 amended: for each of the five kinds, a nil selector yields the
"selector is not defined" error without a list call; a present-but-empty
selector passes without a list call; criteria convertible to an equality map
issue exactly one list call — non-empty answer passes, empty answer is the
kind's no-match error; criteria the map conversion rejects (NotIn, Exists,
DoesNotExist, or In without exactly one value) yield an invalid-format error
without any list call. -/
theorem checkResourceLabelSelectors_amended
    (st : SelectorClusterState) (sel : Option LabelSelector) (kind ns : String)
    (hkind : kind ∈ [ServiceMonitor, PodMonitor, Probe, ScrapeConfig, PrometheusRule]) :
    (sel = none →
      checkResourceLabelSelectors st sel kind ns =
        ⟨Except.error (kind ++ " selector is not defined"), 0⟩) ∧
    (∀ ls, sel = some ls → ls.matchLabels = [] → ls.matchExpressions = [] →
      checkResourceLabelSelectors st sel kind ns = ⟨Except.ok (), 0⟩) ∧
    (∀ ls m, sel = some ls → (ls.matchLabels ≠ [] ∨ ls.matchExpressions ≠ []) →
      labelSelectorAsMap ls = Except.ok m →
      (listWithMap (kindObjs st kind) ns m ≠ [] →
        checkResourceLabelSelectors st sel kind ns = ⟨Except.ok (), 1⟩) ∧
      (listWithMap (kindObjs st kind) ns m = [] →
        checkResourceLabelSelectors st sel kind ns =
          ⟨Except.error (noMatchMsg kind ns), 1⟩)) ∧
    (∀ ls e, sel = some ls → (ls.matchLabels ≠ [] ∨ ls.matchExpressions ≠ []) →
      labelSelectorAsMap ls = Except.error e →
      checkResourceLabelSelectors st sel kind ns =
        ⟨Except.error ("invalid label selector format in " ++ kind ++ ": " ++ e), 0⟩) := by
  have hcrit : ∀ ls : LabelSelector, ls.matchLabels ≠ [] ∨ ls.matchExpressions ≠ [] →
      (ls.matchLabels.length == 0 && ls.matchExpressions.length == 0) = false := by
    intro ls h
    rcases h with h | h
    · have hl : ls.matchLabels.length ≠ 0 := by simpa using h
      simp [hl]
    · have hl : ls.matchExpressions.length ≠ 0 := by simpa using h
      simp [hl]
  refine ⟨?_, ?_, ?_, ?_⟩
  · rintro rfl
    rfl
  · rintro ls rfl h1 h2
    simp [checkResourceLabelSelectors, h1, h2]
  · rintro ls m rfl hor hmap
    fin_cases hkind <;>
      constructor <;>
        intro hlist <;>
          simp_all [checkResourceLabelSelectors, kindObjs, noMatchMsg, hcrit ls hor,
            ServiceMonitor, PodMonitor, Probe, ScrapeConfig, PrometheusRule,
            List.length_eq_zero]
  · rintro ls e rfl hor hmap
    simp [checkResourceLabelSelectors, hcrit ls hor, hmap]

/-- Cluster state for the C1 witness: one PodMonitor labelled app = x. -/
theorem checkResourceLabelSelectors_amended_witness :
    checkResourceLabelSelectors ⟨[], [⟨"pm1", "ns1", [("app", "x")]⟩], [], [], []⟩
        (some ⟨[("app", "x")], []⟩) PodMonitor "ns1" = ⟨Except.ok (), 1⟩ :=
  ((checkResourceLabelSelectors_amended
      ⟨[], [⟨"pm1", "ns1", [("app", "x")]⟩], [], [], []⟩
      (some ⟨[("app", "x")], []⟩) PodMonitor "ns1"
      (by simp)).2.2.1
    ⟨[("app", "x")], []⟩ [("app", "x")] rfl (Or.inl (by decide)) rfl).1 (by decide)

lemma noServicesMsg_ne_noSelectorMsg (name ns : String) :
    noServicesMsg name ns ≠ noSelectorMsg name ns := by
  intro h
  have hl := congrArg String.length h
  have e1 : (" has no services matching the selector" : String).length = 38 := rfl
  have e2 : (" does not have a selector" : String).length = 25 := rfl
  simp only [noServicesMsg, noSelectorMsg, String.length_append, e1, e2] at hl
  omega

lemma noPortMsg_ne_noSelectorMsg (name ns p : String) :
    noPortMsg name ns p ≠ noSelectorMsg name ns := by
  intro h
  have hl := congrArg String.length h
  have e1 : (" has no services with port " : String).length = 27 := rfl
  have e2 : (" does not have a selector" : String).length = 25 := rfl
  simp only [noPortMsg, noSelectorMsg, String.length_append, e1, e2] at hl
  omega

lemma evaluatePortMatches_go_cases (sm : ServiceMonitorObj) (svcs : List Service)
    (name ns : String) (l : List String) :
    evaluatePortMatches.go svcs name ns l = Except.ok () ∨
      ∃ p, evaluatePortMatches.go svcs name ns l = Except.error (noPortMsg name ns p) := by
  induction l with
  | nil => exact Or.inl rfl
  | cons p rest ih =>
    by_cases hp : (svcs.any (fun s => s.ports.any (fun sp => sp.name == p))) = true
    · simpa [evaluatePortMatches.go, hp] using ih
    · right
      exact ⟨p, by simp [evaluatePortMatches.go, hp]⟩

lemma smSelectorBlock_cases (services : List Service) (sm : ServiceMonitorObj)
    (name ns : String) :
    smSelectorBlock services sm name ns = Except.ok () ∨
      smSelectorBlock services sm name ns = Except.error (noServicesMsg name ns) ∨
      ∃ p, smSelectorBlock services sm name ns = Except.error (noPortMsg name ns p) := by
  unfold smSelectorBlock
  by_cases h : ((listServices services ns sm.selector).length == 0) = true
  · simp [h]
  · rcases evaluatePortMatches_go_cases sm (listServices services ns sm.selector) name ns
        sm.endpoints with hc | ⟨p, hc⟩
    · exact Or.inl (by simp [h, evaluatePortMatches] at hc ⊢; exact hc)
    · exact Or.inr (Or.inr ⟨p, by simp [h, evaluatePortMatches] at hc ⊢; exact hc⟩)

/-- C4 counterexample: a ServiceMonitor that exists with a present-but-empty
selector (matchLabels and matchExpressions both empty) hard-fails the
selector-presence step with "does not have a selector"; the claim predicts it
passes that step. This matches the repository's own test
ServiceMonitorEmptySelector, which expects the failure. -/
theorem runServiceMonitorAnalyzer_claim_false :
    runServiceMonitorAnalyzer [] (Except.ok ⟨"test", "sm1", ⟨[], []⟩, []⟩) "sm1" "test" =
      Except.error "ServiceMonitor sm1 in namespace test does not have a selector" := rfl

/-- C4 amended: the analyzer hard-fails the selector-presence step exactly
when the selector's matchLabels and matchExpressions are both empty — the
selector field is a struct value, so an absent selector is indistinguishable
from a present-but-empty one, and both hard-fail; with any criterion present
the analysis proceeds (the presence error is never returned). -/
theorem runServiceMonitorAnalyzer_presence_amended (services : List Service)
    (sm : ServiceMonitorObj) (name ns : String) :
    (sm.selector.matchLabels = [] → sm.selector.matchExpressions = [] →
      runServiceMonitorAnalyzer services (Except.ok sm) name ns =
        Except.error (noSelectorMsg name ns)) ∧
    (sm.selector.matchLabels ≠ [] ∨ sm.selector.matchExpressions ≠ [] →
      runServiceMonitorAnalyzer services (Except.ok sm) name ns ≠
        Except.error (noSelectorMsg name ns)) := by
  constructor
  · intro h1 h2
    simp [runServiceMonitorAnalyzer, smAfterFetch, h1, h2]
  · intro hor
    have hcrit : (sm.selector.matchLabels.length == 0 &&
        sm.selector.matchExpressions.length == 0) = false := by
      rcases hor with h | h
      · have hl : sm.selector.matchLabels.length ≠ 0 := by simpa using h
        simp [hl]
      · have hl : sm.selector.matchExpressions.length ≠ 0 := by simpa using h
        simp [hl]
    have hblock : ∀ e, smSelectorBlock services sm name ns = Except.error e →
        e ≠ noSelectorMsg name ns := by
      intro e he
      rcases smSelectorBlock_cases services sm name ns with hc | hc | ⟨p, hc⟩
      · rw [he] at hc; exact absurd hc (by simp)
      · rw [he] at hc
        have h2 : e = noServicesMsg name ns := (Except.error.injEq _ _).mp hc
        rw [h2]
        exact noServicesMsg_ne_noSelectorMsg name ns
      · rw [he] at hc
        have h2 : e = noPortMsg name ns p := (Except.error.injEq _ _).mp hc
        rw [h2]
        exact noPortMsg_ne_noSelectorMsg name ns p
    intro hrun
    have hrun2 : smAfterFetch services sm name ns = Except.error (noSelectorMsg name ns) := by
      simpa [runServiceMonitorAnalyzer] using hrun
    unfold smAfterFetch at hrun2
    rw [hcrit] at hrun2
    simp only [Bool.false_eq_true, if_false] at hrun2
    by_cases h1 : (sm.selector.matchLabels.length > 0)
    · simp only [h1, if_true] at hrun2
      cases hb : smSelectorBlock services sm name ns with
      | error e =>
        rw [hb] at hrun2
        exact hblock e hb ((Except.error.injEq _ _).mp hrun2)
      | ok u =>
        cases u
        rw [hb] at hrun2
        by_cases h2 : (sm.selector.matchExpressions.length > 0)
        · simp only [h2, if_true] at hrun2
          exact Except.noConfusion hrun2
        · simp only [h2, if_false] at hrun2
          exact Except.noConfusion hrun2
    · simp only [h1, if_false] at hrun2
      by_cases h2 : (sm.selector.matchExpressions.length > 0)
      · simp only [h2, if_true] at hrun2
        exact hblock _ hrun2 rfl
      · simp only [h2, if_false] at hrun2
        exact Except.noConfusion hrun2

/-- Witness for the C4 amended theorem: an empty selector fails with the
presence error, and a selector with a matchLabels criterion does not. -/
theorem runServiceMonitorAnalyzer_presence_amended_witness :
    runServiceMonitorAnalyzer [] (Except.ok ⟨"test", "sm2", ⟨[], []⟩, []⟩) "sm2" "test" =
        Except.error (noSelectorMsg "sm2" "test") ∧
      runServiceMonitorAnalyzer [⟨"test", "svc1", [("app", "x")], [⟨"web", 80⟩]⟩]
          (Except.ok ⟨"test", "sm3", ⟨[("app", "x")], []⟩, ["web"]⟩) "sm3" "test" ≠
        Except.error (noSelectorMsg "sm3" "test") :=
  ⟨(runServiceMonitorAnalyzer_presence_amended [] ⟨"test", "sm2", ⟨[], []⟩, []⟩
      "sm2" "test").1 rfl rfl,
   (runServiceMonitorAnalyzer_presence_amended [⟨"test", "svc1", [("app", "x")], [⟨"web", 80⟩]⟩]
      ⟨"test", "sm3", ⟨[("app", "x")], []⟩, ["web"]⟩ "sm3" "test").2 (Or.inl (by decide))⟩

lemma analyzeCRDRulesGo_spec (lookup : String → CRDNames) (roleRefName : String)
    (rule : PolicyRule) (l : List String) : ∀ acc : List String,
    ((analyzeCRDRulesGo lookup roleRefName rule acc l).1 = Except.ok () ↔
      l.all (fun c => ruleCoversCRD rule (lookup c)) = true) ∧
    (∀ c, l.find? (fun c => !ruleCoversCRD rule (lookup c)) = some c →
      (analyzeCRDRulesGo lookup roleRefName rule acc l).1 =
        Except.error (crdMissingMsg roleRefName (lookup c).plural) ∧
      (analyzeCRDRulesGo lookup roleRefName rule acc l).2 =
        acc ++ l.takeWhile (fun c => ruleCoversCRD rule (lookup c)) ++ [c]) ∧
    ((analyzeCRDRulesGo lookup roleRefName rule acc l).1 = Except.ok () →
      (analyzeCRDRulesGo lookup roleRefName rule acc l).2 = acc ++ l) := by
  induction l with
  | nil =>
    intro acc
    refine ⟨by simp [analyzeCRDRulesGo], ?_, by simp [analyzeCRDRulesGo]⟩
    intro c hc
    simp [List.find?] at hc
  | cons c rest ih =>
    intro acc
    by_cases hcov : ruleCoversCRD rule (lookup c) = true
    · have hstep : analyzeCRDRulesGo lookup roleRefName rule acc (c :: rest) =
          analyzeCRDRulesGo lookup roleRefName rule (acc ++ [c]) rest := by
        simp [analyzeCRDRulesGo, hcov]
      refine ⟨?_, ?_, ?_⟩
      · rw [hstep]
        simp [hcov, (ih (acc ++ [c])).1]
      · intro d hd
        have hd2 : rest.find? (fun c => !ruleCoversCRD rule (lookup c)) = some d := by
          simpa [List.find?, hcov] using hd
        rw [hstep]
        rcases (ih (acc ++ [c])).2.1 d hd2 with ⟨h1, h2⟩
        refine ⟨h1, ?_⟩
        rw [h2]
        simp [List.takeWhile, hcov]
      · intro hok
        rw [hstep] at hok ⊢
        have := (ih (acc ++ [c])).2.2 hok
        rw [this]
        simp
    · have hcov2 : ruleCoversCRD rule (lookup c) = false := by
        simpa using hcov
      have hstep : analyzeCRDRulesGo lookup roleRefName rule acc (c :: rest) =
          (Except.error (crdMissingMsg roleRefName (lookup c).plural), acc ++ [c]) := by
        simp [analyzeCRDRulesGo, hcov2]
      refine ⟨?_, ?_, ?_⟩
      · rw [hstep]
        simp [hcov2]
      · intro d hd
        have hd2 : d = c := by
          simp [List.find?, hcov2] at hd
          exact hd.symm
        subst hd2
        rw [hstep]
        simp [List.takeWhile, hcov2]
      · intro hok
        rw [hstep] at hok
        exact absurd hok (by simp)

/-- C6: CRD-coverage verification succeeds iff every CRD in the registry is
covered by the rule's resources (plural, singular, or either with the
"/finalizers" suffix); the first uncovered CRD in registry order yields a
terminal error naming its plural, and the walk fetches exactly the covered
prefix plus that CRD — no later registry entry is consulted. -/
theorem analyzeCRDRules_correct (lookup : String → CRDNames) (roleRefName : String)
    (rule : PolicyRule) :
    ((analyzeCRDRules lookup roleRefName rule).1 = Except.ok () ↔
      crdsList.all (fun c => ruleCoversCRD rule (lookup c)) = true) ∧
    (∀ c, crdsList.find? (fun c => !ruleCoversCRD rule (lookup c)) = some c →
      (analyzeCRDRules lookup roleRefName rule).1 =
        Except.error (crdMissingMsg roleRefName (lookup c).plural) ∧
      (analyzeCRDRules lookup roleRefName rule).2 =
        crdsList.takeWhile (fun c => ruleCoversCRD rule (lookup c)) ++ [c]) ∧
    ((analyzeCRDRules lookup roleRefName rule).1 = Except.ok () →
      (analyzeCRDRules lookup roleRefName rule).2 = crdsList) := by
  have h := analyzeCRDRulesGo_spec lookup roleRefName rule crdsList []
  refine ⟨h.1, ?_, ?_⟩
  · intro c hc
    rcases h.2.1 c hc with ⟨h1, h2⟩
    exact ⟨h1, by simpa using h2⟩
  · intro hok
    simpa using h.2.2 hok

/-- Witness for C6: a rule containing the whole registry passes and fetches
everything; the empty rule fails at the first registry entry, alertmanagers,
after fetching only it. -/
theorem analyzeCRDRules_correct_witness :
    (analyzeCRDRules (fun c => ⟨c, c⟩) "op" ⟨[], crdsList, [], []⟩).1 = Except.ok () ∧
      (analyzeCRDRules (fun c => ⟨c, c⟩) "op" ⟨[], [], [], []⟩).1 =
        Except.error "ClusterRole op does not have alertmanagers in its rules" ∧
      (analyzeCRDRules (fun c => ⟨c, c⟩) "op" ⟨[], [], [], []⟩).2 = ["alertmanagers"] := by
  refine ⟨?_, ?_, ?_⟩
  · exact (analyzeCRDRules_correct (fun c => ⟨c, c⟩) "op" ⟨[], crdsList, [], []⟩).1.mpr
      (by decide)
  · exact ((analyzeCRDRules_correct (fun c => ⟨c, c⟩) "op"
      ⟨[], [], [], []⟩).2.1 "alertmanagers" (by decide)).1
  · have := ((analyzeCRDRules_correct (fun c => ⟨c, c⟩) "op"
      ⟨[], [], [], []⟩).2.1 "alertmanagers" (by decide)).2
    simpa using this

/-- C7: for an Alertmanager with no config selector, no configuration and no
ConfigSecret, the analyzer checks the secret "alertmanager-NAME-generated" in
the target namespace: a failing get, an empty data map, or a missing
"alertmanager.yaml.gz" key each yield a terminal error whose text names that
secret; when the key is present the secret check passes and the analyzer
proceeds to the namespace-selector step. -/
theorem runAlertmanagerAnalyzer_default_secret (st : AMState) (name ns : String)
    (am : AlertmanagerObj)
    (ham : st.amGet = Except.ok am)
    (hsa : st.saGet ns am.serviceAccountName = Except.ok ())
    (hsel : am.hasConfigSelector = false)
    (hcfg : am.hasConfiguration = false)
    (hcs : am.configSecret = "") :
    (∀ e, st.getSecret ns ("alertmanager-" ++ am.name ++ "-generated") = Except.error e →
      runAlertmanagerAnalyzer st name ns =
        Except.error ("error checking Alertmanager secret: " ++
          ("failed to get alertmanager secret " ++
            ("alertmanager-" ++ am.name ++ "-generated") ++ " " ++ e))) ∧
    (∀ s, st.getSecret ns ("alertmanager-" ++ am.name ++ "-generated") = Except.ok s →
      s.data = [] →
      runAlertmanagerAnalyzer st name ns =
        Except.error ("error checking Alertmanager secret: " ++
          ("alertmanager Secret " ++ ("alertmanager-" ++ am.name ++ "-generated") ++
            " is empty"))) ∧
    (∀ s, st.getSecret ns ("alertmanager-" ++ am.name ++ "-generated") = Except.ok s →
      s.data ≠ [] →
      (s.data.find? (fun kv => kv.1 == "alertmanager.yaml.gz")) = none →
      runAlertmanagerAnalyzer st name ns =
        Except.error ("error checking Alertmanager secret: " ++
          ("the alertmanager.yaml.gz key not found in Secret " ++
            ("alertmanager-" ++ am.name ++ "-generated")))) ∧
    (∀ s, st.getSecret ns ("alertmanager-" ++ am.name ++ "-generated") = Except.ok s →
      (s.data.find? (fun kv => kv.1 == "alertmanager.yaml.gz")).isSome →
      checkAlertmanagerSecret st.getSecret ("alertmanager-" ++ am.name ++ "-generated")
          ns "alertmanager.yaml.gz" = Except.ok () ∧
      runAlertmanagerAnalyzer st name ns = amConfigNsStep st am) := by
  refine ⟨?_, ?_, ?_, ?_⟩
  · intro e he
    simp [runAlertmanagerAnalyzer, ham, hsa, amSecretStep, hsel, hcfg, hcs,
      checkAlertmanagerSecret, he]
  · intro s hs hd
    simp [runAlertmanagerAnalyzer, ham, hsa, amSecretStep, hsel, hcfg, hcs,
      checkAlertmanagerSecret, hs, hd]
  · intro s hs hd hk
    have hlen : s.data.length ≠ 0 := by simpa using hd
    simp [runAlertmanagerAnalyzer, ham, hsa, amSecretStep, hsel, hcfg, hcs,
      checkAlertmanagerSecret, hs, hlen, hk]
  · intro s hs hk
    have hd : s.data ≠ [] := by
      intro hnil
      rw [hnil] at hk
      simp [List.find?] at hk
    have hlen : s.data.length ≠ 0 := by simpa using hd
    constructor
    · simp [checkAlertmanagerSecret, hs, hlen, hk]
    · simp [runAlertmanagerAnalyzer, ham, hsa, amSecretStep, hsel, hcfg, hcs,
        checkAlertmanagerSecret, hs, hlen, hk]

/-- Witness for C7: a generated secret lacking the gz key is reported naming
that secret, and one holding the key passes the secret step and reaches the
(empty) namespace-selector step. -/
theorem runAlertmanagerAnalyzer_default_secret_witness :
    runAlertmanagerAnalyzer
        ⟨Except.ok ⟨"am1", "sa", "", false, false, none⟩,
          fun _ _ => Except.ok (),
          fun _ _ => Except.ok ⟨[("alertmanager.yaml", "x")]⟩, []⟩ "am1" "test" =
      Except.error ("error checking Alertmanager secret: " ++
        "the alertmanager.yaml.gz key not found in Secret alertmanager-am1-generated") ∧
    runAlertmanagerAnalyzer
        ⟨Except.ok ⟨"am1", "sa", "", false, false, none⟩,
          fun _ _ => Except.ok (),
          fun _ _ => Except.ok ⟨[("alertmanager.yaml.gz", "x")]⟩, []⟩ "am1" "test" =
      amConfigNsStep
        ⟨Except.ok ⟨"am1", "sa", "", false, false, none⟩,
          fun _ _ => Except.ok (),
          fun _ _ => Except.ok ⟨[("alertmanager.yaml.gz", "x")]⟩, []⟩
        ⟨"am1", "sa", "", false, false, none⟩ := by
  constructor
  · have h := (runAlertmanagerAnalyzer_default_secret
      ⟨Except.ok ⟨"am1", "sa", "", false, false, none⟩,
        fun _ _ => Except.ok (),
        fun _ _ => Except.ok ⟨[("alertmanager.yaml", "x")]⟩, []⟩ "am1" "test"
      ⟨"am1", "sa", "", false, false, none⟩ rfl rfl rfl rfl rfl).2.2.1
      ⟨[("alertmanager.yaml", "x")]⟩ rfl (by decide) (by decide)
    simpa using h
  · exact ((runAlertmanagerAnalyzer_default_secret
      ⟨Except.ok ⟨"am1", "sa", "", false, false, none⟩,
        fun _ _ => Except.ok (),
        fun _ _ => Except.ok ⟨[("alertmanager.yaml.gz", "x")]⟩, []⟩ "am1" "test"
      ⟨"am1", "sa", "", false, false, none⟩ rfl rfl rfl rfl rfl).2.2.2
      ⟨[("alertmanager.yaml.gz", "x")]⟩ rfl (by decide)).2

lemma mapGet_mapAppend (m : GoMap) (k v k2 : String) :
    mapGet (mapAppend m k v) k2 =
      if k2 = k then mapGet m k2 ++ [v] else mapGet m k2 := by
  induction m with
  | nil =>
    by_cases h : k2 = k
    · subst h; simp [mapAppend, mapGet]
    · have hb : (k == k2) = false := beq_eq_false_iff_ne.mpr (fun hh => h hh.symm)
      simp [mapAppend, mapGet, hb, h]
  | cons e rest ih =>
    by_cases he : e.1 = k
    · have hb : (e.1 == k) = true := beq_iff_eq.mpr he
      by_cases h : k2 = k
      · subst h
        have hb2 : (e.1 == k2) = true := beq_iff_eq.mpr he
        simp [mapAppend, hb, mapGet, hb2]
      · have hb2 : (e.1 == k2) = false :=
          beq_eq_false_iff_ne.mpr (fun hh => h (he ▸ hh).symm)
        simp [mapAppend, hb, mapGet, hb2, h]
    · have hb : (e.1 == k) = false := beq_eq_false_iff_ne.mpr he
      by_cases h2 : e.1 = k2
      · have hb2 : (e.1 == k2) = true := beq_iff_eq.mpr h2
        have hne : k2 ≠ k := fun hh => he (h2.symm ▸ hh ▸ rfl)
        simp [mapAppend, hb, mapGet, hb2, hne]
      · have hb2 : (e.1 == k2) = false := beq_eq_false_iff_ne.mpr h2
        simp [mapAppend, hb, mapGet, hb2, ih]

lemma mapGet_accumulate (name : String) (ks : List String) : ∀ (m : GoMap) (k : String),
    mapGet (accumulate m name ks) k = mapGet m k ++ List.replicate (ks.count k) name := by
  induction ks with
  | nil => intro m k; simp [accumulate]
  | cons k0 ks ih =>
    intro m k
    rw [show accumulate m name (k0 :: ks) = accumulate (mapAppend m k0 name) name ks from rfl,
      ih (mapAppend m k0 name) k, mapGet_mapAppend]
    by_cases h : k = k0
    · subst h
      rw [List.count_cons_self]
      simp [List.replicate_succ, List.replicate_succ' (n := ks.count k)]
    · rw [List.count_cons_of_ne (by simpa using h)]
      simp [h]

lemma mapKeys_mapAppend (m : GoMap) (k v : String) :
    mapKeys (mapAppend m k v) =
      if k ∈ mapKeys m then mapKeys m else mapKeys m ++ [k] := by
  induction m with
  | nil => simp [mapAppend, mapKeys]
  | cons e rest ih =>
    have hcons : mapKeys (e :: rest) = e.1 :: mapKeys rest := rfl
    by_cases he : e.1 = k
    · have hb : (e.1 == k) = true := beq_iff_eq.mpr he
      have hmem : k ∈ mapKeys (e :: rest) := by
        rw [hcons, he]
        exact List.mem_cons_self k (mapKeys rest)
      have hhd : mapKeys (mapAppend (e :: rest) k v) = e.1 :: mapKeys rest := by
        simp [mapAppend, hb, mapKeys]
      rw [hhd, if_pos hmem, hcons]
    · have hb : (e.1 == k) = false := beq_eq_false_iff_ne.mpr he
      have hne : k ≠ e.1 := fun hh => he hh.symm
      have hhd : mapKeys (mapAppend (e :: rest) k v) =
          e.1 :: mapKeys (mapAppend rest k v) := by
        simp [mapAppend, hb, mapKeys]
      by_cases hk : k ∈ mapKeys rest
      · have hmem : k ∈ mapKeys (e :: rest) := by
          rw [hcons]
          exact List.mem_cons_of_mem _ hk
        rw [hhd, ih, if_pos hk, if_pos hmem, hcons]
      · have hmem : k ∉ mapKeys (e :: rest) := by
          rw [hcons]
          intro hh
          rcases List.mem_cons.mp hh with hh2 | hh2
          · exact hne hh2
          · exact hk hh2
        rw [hhd, ih, if_neg hk, if_neg hmem, hcons]
        simp

lemma nodup_mapKeys_mapAppend (m : GoMap) (k v : String)
    (h : (mapKeys m).Nodup) : (mapKeys (mapAppend m k v)).Nodup := by
  rw [mapKeys_mapAppend]
  by_cases hk : k ∈ mapKeys m
  · rw [if_pos hk]; exact h
  · rw [if_neg hk]
    refine List.Nodup.append h (List.nodup_singleton k) ?_
    intro a ha hb
    rw [List.mem_singleton] at hb
    exact hk (hb ▸ ha)

lemma nodup_mapKeys_accumulate (name : String) (ks : List String) : ∀ m : GoMap,
    (mapKeys m).Nodup → (mapKeys (accumulate m name ks)).Nodup := by
  induction ks with
  | nil => intro m h; simpa [accumulate] using h
  | cons k0 ks ih =>
    intro m h
    exact ih (mapAppend m k0 name) (nodup_mapKeys_mapAppend m k0 name h)

lemma nodup_mapKeys_bucketsOf (cs : List (String × List String)) : ∀ m : GoMap,
    (mapKeys m).Nodup → (mapKeys (bucketsOf m cs)).Nodup := by
  induction cs with
  | nil => intro m h; simpa [bucketsOf] using h
  | cons c cs ih =>
    intro m h
    exact ih (accumulate m c.1 c.2) (nodup_mapKeys_accumulate c.1 c.2 m h)

lemma mapGet_bucketsOf (cs : List (String × List String)) : ∀ (m : GoMap) (k : String),
    mapGet (bucketsOf m cs) k = mapGet m k ++ bucketNames cs k := by
  induction cs with
  | nil => intro m k; simp [bucketsOf, bucketNames]
  | cons c cs ih =>
    intro m k
    rw [show bucketsOf m (c :: cs) = bucketsOf (accumulate m c.1 c.2) cs from rfl,
      ih (accumulate m c.1 c.2) k, mapGet_accumulate]
    simp [bucketNames]

lemma processSMsV1_buckets (services : List Service) (sms : List ServiceMonitorObj) :
    ∀ (errs : List String) (m : GoMap),
      (processSMsV1 services sms (errs, m)).2 = bucketsOf m (smContribs services sms) := by
  induction sms with
  | nil => intro errs m; simp [processSMsV1, bucketsOf, smContribs]
  | cons sm rest ih =>
    intro errs m
    by_cases hv : labelSelectorValid sm.selector = true
    · rw [show processSMsV1 services (sm :: rest) (errs, m) =
          processSMsV1 services rest
            (errs, accumulate m sm.name (smInsertKeys services sm)) by
        simp [processSMsV1, checkOverlappingServiceMonitorsV1, hv]]
      rw [ih]
      simp [smContribs, hv, bucketsOf]
    · have hv2 : labelSelectorValid sm.selector = false := by simpa using hv
      rw [show processSMsV1 services (sm :: rest) (errs, m) =
          processSMsV1 services rest
            (errs ++ [invalidSelMsg "ServiceMonitor" sm.ns sm.name], m) by
        simp [processSMsV1, checkOverlappingServiceMonitorsV1, hv2]]
      rw [ih]
      simp [smContribs, hv2]

lemma processPMsV1_buckets (pods : List Pod) (pms : List PodMonitorObj) :
    ∀ (errs : List String) (m : GoMap),
      (processPMsV1 pods pms (errs, m)).2 = bucketsOf m (pmContribs pods pms) := by
  induction pms with
  | nil => intro errs m; simp [processPMsV1, bucketsOf, pmContribs]
  | cons pm rest ih =>
    intro errs m
    by_cases hv : labelSelectorValid pm.selector = true
    · rw [show processPMsV1 pods (pm :: rest) (errs, m) =
          processPMsV1 pods rest
            (errs, accumulate m pm.name (pmInsertKeys pods pm)) by
        simp [processPMsV1, checkOverlappingPodMonitorsV1, hv]]
      rw [ih]
      simp [pmContribs, hv, bucketsOf]
    · have hv2 : labelSelectorValid pm.selector = false := by simpa using hv
      rw [show processPMsV1 pods (pm :: rest) (errs, m) =
          processPMsV1 pods rest
            (errs ++ [invalidSelMsg "PodMonitor" pm.ns pm.name], m) by
        simp [processPMsV1, checkOverlappingPodMonitorsV1, hv2]]
      rw [ih]
      simp [pmContribs, hv2]

lemma filterMap_congr_mem {α β : Type} (l : List α) (f g : α → Option β)
    (h : ∀ a ∈ l, f a = g a) : l.filterMap f = l.filterMap g := by
  induction l with
  | nil => rfl
  | cons a l ih =>
    rw [List.filterMap_cons, List.filterMap_cons, h a (by simp),
      ih (fun b hb => h b (by simp [hb]))]

lemma scanOverlaps_canonical (msgOf : String → List String → String) :
    ∀ m : GoMap, (mapKeys m).Nodup →
      scanOverlaps m (mapKeys m) msgOf =
        (m.filter (fun e => e.2.length > 1)).map (fun e => msgOf e.1 e.2) := by
  intro m
  induction m with
  | nil => intro h; rfl
  | cons e rest ih =>
    intro h
    have hcons : mapKeys (e :: rest) = e.1 :: mapKeys rest := rfl
    rw [hcons] at h
    have hnotin : e.1 ∉ mapKeys rest := (List.nodup_cons.mp h).1
    have hrest : (mapKeys rest).Nodup := (List.nodup_cons.mp h).2
    have hget : ∀ k ∈ mapKeys rest, mapGet (e :: rest) k = mapGet rest k := by
      intro k hk
      have hne : e.1 ≠ k := fun hh => hnotin (hh ▸ hk)
      have hb : (e.1 == k) = false := beq_eq_false_iff_ne.mpr hne
      simp [mapGet, hb]
    have hself : mapGet (e :: rest) e.1 = e.2 := by simp [mapGet]
    have ihf := ih hrest
    unfold scanOverlaps at ihf
    have htailf : List.filterMap (fun k =>
          if (mapGet (e :: rest) k).length > 1 then
            some (msgOf k (mapGet (e :: rest) k)) else none) (mapKeys rest) =
        List.filterMap (fun k =>
          if (mapGet rest k).length > 1 then
            some (msgOf k (mapGet rest k)) else none) (mapKeys rest) :=
      filterMap_congr_mem _ _ _ (fun k hk => by rw [hget k hk])
    rw [show mapKeys (e :: rest) = e.1 :: mapKeys rest from rfl]
    unfold scanOverlaps
    rw [List.filterMap_cons, htailf, ihf, List.filter_cons]
    by_cases hlen : e.2.length > 1
    · simp [hself, hlen]
    · simp [hself, hlen]

lemma mem_flaggedKeys_of_two_le (m : GoMap) (k : String)
    (h : 2 ≤ (mapGet m k).length) : k ∈ flaggedKeys m := by
  induction m with
  | nil => simp [mapGet] at h
  | cons e rest ih =>
    by_cases he : (e.1 == k) = true
    · have hk : e.1 = k := beq_iff_eq.mp he
      have hget : mapGet (e :: rest) k = e.2 := by simp [mapGet, he]
      rw [hget] at h
      have : e.2.length > 1 := by omega
      simp [flaggedKeys, List.filter_cons, this, hk.symm]
    · have hget : mapGet (e :: rest) k = mapGet rest k := by simp [mapGet, he]
      rw [hget] at h
      have hmem := ih h
      by_cases hlen : e.2.length > 1 <;>
        simp [flaggedKeys, List.filter_cons, hlen] at hmem ⊢ <;>
          simp [hmem]

lemma v2Go_map (msgOf : String → List String → String) (name : String)
    (ks : List String) : ∀ (errs : List String) (m : GoMap),
      (v2Go msgOf name (errs, m) ks).2 = accumulate m name ks := by
  induction ks with
  | nil => intro errs m; simp [v2Go, accumulate]
  | cons k0 ks ih =>
    intro errs m
    rw [show accumulate m name (k0 :: ks) = accumulate (mapAppend m k0 name) name ks from rfl]
    by_cases h : (mapGet (mapAppend m k0 name) k0).length > 1
    · rw [show v2Go msgOf name (errs, m) (k0 :: ks) =
          v2Go msgOf name
            (errs ++ [msgOf k0 (mapGet (mapAppend m k0 name) k0)],
              mapAppend m k0 name) ks by
        simp [v2Go, h]]
      exact ih _ _
    · rw [show v2Go msgOf name (errs, m) (k0 :: ks) =
          v2Go msgOf name (errs, mapAppend m k0 name) ks by
        simp [v2Go, h]]
      exact ih _ _

lemma le_bucketNames_length (k : String) (cs : List (String × List String))
    (c : String × List String) (h : c ∈ cs) :
    c.2.count k ≤ (bucketNames cs k).length := by
  induction cs with
  | nil => simp at h
  | cons d rest ih =>
    rw [show bucketNames (d :: rest) k =
        List.replicate (d.2.count k) d.1 ++ bucketNames rest k by
      simp [bucketNames]]
    rcases List.mem_cons.mp h with hh | hh
    · subst hh; simp
    · have := ih hh
      simp only [List.length_append, List.length_replicate]
      omega

/-- C2 counterexample: two ServiceMonitors both selecting the same Service
port. The post-accumulation variant reports the overlap (and fails the run);
the flag-during-accumulation variant, whose map is created per monitor, sees
each bucket reach size one only, reports nothing and succeeds — the two
implementations do not return the same final finding set. -/
theorem overlapVariants_disagree :
    overlapFindingsV1 servicesOv1 [] smsOv [] =
      ["Overlapping ServiceMonitors found for service/port test/svc1:80: [sm1 sm2]"] ∧
    overlapFindingsV2 servicesOv1 [] smsOv [] = [] ∧
    runOverlappingV1 ⟨ListOutcome.ok smsOv, ListOutcome.ok [], servicesOv1, []⟩
        ["test/svc1:80"] [] =
      RunOutcome.err
        "multiple issues found:\nOverlapping ServiceMonitors found for service/port test/svc1:80: [sm1 sm2]" ∧
    runOverlappingV2 ⟨ListOutcome.ok smsOv, ListOutcome.ok [], servicesOv1, []⟩ =
      RunOutcome.ok :=
  ⟨rfl, rfl, rfl, rfl⟩

/-- C2 amended: the per-monitor map of the flag-during-accumulation variant
is exactly `smLocalBuckets`/`pmLocalBuckets`, and every key it can flag (a
bucket of size at least two in a single valid monitor's own map) also has a
bucket of size at least two in the post-accumulation variant's shared map and
is therefore among its flagged keys; the converse fails, as the
counterexample shows, because only the shared map sees cross-monitor
duplication. -/
theorem overlapV2_flags_within_V1 (services : List Service) (pods : List Pod)
    (sms : List ServiceMonitorObj) (pms : List PodMonitorObj)
    (sm : ServiceMonitorObj) (pm : PodMonitorObj) (k : String) :
    ((v2Go svcOverlapMsg sm.name ([], []) (smInsertKeys services sm)).2 =
      smLocalBuckets services sm) ∧
    ((v2Go svcOverlapMsg pm.name ([], []) (pmInsertKeys pods pm)).2 =
      pmLocalBuckets pods pm) ∧
    (sm ∈ sms → labelSelectorValid sm.selector = true →
      2 ≤ (mapGet (smLocalBuckets services sm) k).length →
      2 ≤ (mapGet (smBuckets services sms) k).length ∧
        k ∈ flaggedKeys (smBuckets services sms)) ∧
    (pm ∈ pms → labelSelectorValid pm.selector = true →
      2 ≤ (mapGet (pmLocalBuckets pods pm) k).length →
      2 ≤ (mapGet (pmBuckets pods pms) k).length ∧
        k ∈ flaggedKeys (pmBuckets pods pms)) := by
  refine ⟨v2Go_map svcOverlapMsg sm.name (smInsertKeys services sm) [] [],
    v2Go_map svcOverlapMsg pm.name (pmInsertKeys pods pm) [] [], ?_, ?_⟩
  · intro hmem hv hloc
    have hlocal : mapGet (smLocalBuckets services sm) k =
        List.replicate ((smInsertKeys services sm).count k) sm.name := by
      rw [smLocalBuckets, mapGet_accumulate]
      simp [mapGet]
    rw [hlocal] at hloc
    rw [List.length_replicate] at hloc
    have hshared : mapGet (smBuckets services sms) k =
        bucketNames (smContribs services sms) k := by
      rw [smBuckets, processSMsV1_buckets, mapGet_bucketsOf]
      simp [mapGet]
    have hcmem : (sm.name, smInsertKeys services sm) ∈ smContribs services sms := by
      rw [smContribs]
      exact List.mem_filterMap.mpr ⟨sm, hmem, by simp [hv]⟩
    have hle : (smInsertKeys services sm).count k ≤
        (bucketNames (smContribs services sms) k).length := by
      simpa using le_bucketNames_length k (smContribs services sms)
        (sm.name, smInsertKeys services sm) hcmem
    have h2 : 2 ≤ (mapGet (smBuckets services sms) k).length := by
      rw [hshared]
      omega
    exact ⟨h2, mem_flaggedKeys_of_two_le _ _ h2⟩
  · intro hmem hv hloc
    have hlocal : mapGet (pmLocalBuckets pods pm) k =
        List.replicate ((pmInsertKeys pods pm).count k) pm.name := by
      rw [pmLocalBuckets, mapGet_accumulate]
      simp [mapGet]
    rw [hlocal] at hloc
    rw [List.length_replicate] at hloc
    have hshared : mapGet (pmBuckets pods pms) k =
        bucketNames (pmContribs pods pms) k := by
      rw [pmBuckets, processPMsV1_buckets, mapGet_bucketsOf]
      simp [mapGet]
    have hcmem : (pm.name, pmInsertKeys pods pm) ∈ pmContribs pods pms := by
      rw [pmContribs]
      exact List.mem_filterMap.mpr ⟨pm, hmem, by simp [hv]⟩
    have hle : (pmInsertKeys pods pm).count k ≤
        (bucketNames (pmContribs pods pms) k).length := by
      simpa using le_bucketNames_length k (pmContribs pods pms)
        (pm.name, pmInsertKeys pods pm) hcmem
    have h2 : 2 ≤ (mapGet (pmBuckets pods pms) k).length := by
      rw [hshared]
      omega
    exact ⟨h2, mem_flaggedKeys_of_two_le _ _ h2⟩

/-- Witness for the C2 amended theorem: a single monitor hitting the same key
twice (a Service repeating port 80) is flagged by both variants. -/
theorem overlapV2_flags_within_V1_witness :
    2 ≤ (mapGet (smBuckets servicesDupPort [smDupPort]) "test/svcw:80").length ∧
      "test/svcw:80" ∈ flaggedKeys (smBuckets servicesDupPort [smDupPort]) :=
  (overlapV2_flags_within_V1 servicesDupPort [] [smDupPort] []
      smDupPort ⟨"t", "p", ⟨[], []⟩, []⟩ "test/svcw:80").2.2.1
    (List.mem_singleton.mpr rfl) rfl (by decide)

/-- C5 counterexample: the ServiceMonitor key generation walks the matched
Service's own ports, not the ports the monitor's endpoints reference — here
both monitors reference only endpoint port web, yet the key test/svc1:9090
(the Service's metrics port) is accumulated and produces the sole overlap
finding, which the claim says cannot happen. -/
theorem overlapFindingsV1_ports_claim_false :
    smBuckets servicesOv5 smsOv = [("test/svc1:9090", ["sm1", "sm2"])] ∧
    overlapFindingsV1 servicesOv5 [] smsOv [] =
      ["Overlapping ServiceMonitors found for service/port test/svc1:9090: [sm1 sm2]"] ∧
    smsOv.all (fun sm =>
      !sm.endpoints.contains "metrics" && !sm.endpoints.contains "9090") = true :=
  ⟨rfl, rfl, rfl⟩

/-- C5 amended: in the post-accumulation variant, each shared bucket holds
exactly the contributing monitors' names in processing order — one occurrence
per matching key occurrence, where a ServiceMonitor's key sequence ranges
over every port of every matched Service (ignoring its endpoints) and a
PodMonitor's over its podMetricsEndpoints ports of every matched Pod; the
bucket keys are free of duplicates, and the scan emits exactly one finding
per key whose bucket holds at least two names, listing the full bucket. -/
theorem overlapFindingsV1_characterization (services : List Service)
    (pods : List Pod) (sms : List ServiceMonitorObj) (pms : List PodMonitorObj) :
    (∀ k, mapGet (smBuckets services sms) k = bucketNames (smContribs services sms) k) ∧
    (∀ k, mapGet (pmBuckets pods pms) k = bucketNames (pmContribs pods pms) k) ∧
    (mapKeys (smBuckets services sms)).Nodup ∧
    (mapKeys (pmBuckets pods pms)).Nodup ∧
    overlapFindingsV1 services pods sms pms =
      ((smBuckets services sms).filter (fun e => e.2.length > 1)).map
          (fun e => svcOverlapMsg e.1 e.2) ++
        ((pmBuckets pods pms).filter (fun e => e.2.length > 1)).map
          (fun e => podOverlapMsg e.1 e.2) := by
  have hsm : smBuckets services sms = bucketsOf [] (smContribs services sms) :=
    processSMsV1_buckets services sms [] []
  have hpm : pmBuckets pods pms = bucketsOf [] (pmContribs pods pms) :=
    processPMsV1_buckets pods pms [] []
  have hnodupSM : (mapKeys (smBuckets services sms)).Nodup := by
    rw [hsm]
    exact nodup_mapKeys_bucketsOf _ [] (by simp [mapKeys])
  have hnodupPM : (mapKeys (pmBuckets pods pms)).Nodup := by
    rw [hpm]
    exact nodup_mapKeys_bucketsOf _ [] (by simp [mapKeys])
  refine ⟨?_, ?_, hnodupSM, hnodupPM, ?_⟩
  · intro k
    rw [hsm, mapGet_bucketsOf]
    simp [mapGet]
  · intro k
    rw [hpm, mapGet_bucketsOf]
    simp [mapGet]
  · rw [overlapFindingsV1, scanOverlaps_canonical svcOverlapMsg _ hnodupSM,
      scanOverlaps_canonical podOverlapMsg _ hnodupPM]

/-- C8: the post-accumulation scan is a Go `range` over a map, so the order
of findings inside the aggregated error is the map iteration order, which the
Go runtime varies between runs. On a state with two overlap keys the two
admissible iteration orders of the same bucket map produce different error
text, so two runs against unchanged cluster state need not be
byte-identical. -/
theorem runOverlappingV1_order_dependent :
    mapKeys (smBuckets servicesOv8 smsOv) = ["test/svc1:80", "test/svc2:8080"] ∧
    runOverlappingV1 ⟨ListOutcome.ok smsOv, ListOutcome.ok [], servicesOv8, []⟩
        ["test/svc1:80", "test/svc2:8080"] [] =
      RunOutcome.err
        "multiple issues found:\nOverlapping ServiceMonitors found for service/port test/svc1:80: [sm1 sm2]\nOverlapping ServiceMonitors found for service/port test/svc2:8080: [sm1 sm2]" ∧
    runOverlappingV1 ⟨ListOutcome.ok smsOv, ListOutcome.ok [], servicesOv8, []⟩
        ["test/svc2:8080", "test/svc1:80"] [] =
      RunOutcome.err
        "multiple issues found:\nOverlapping ServiceMonitors found for service/port test/svc2:8080: [sm1 sm2]\nOverlapping ServiceMonitors found for service/port test/svc1:80: [sm1 sm2]" ∧
    ("multiple issues found:\nOverlapping ServiceMonitors found for service/port test/svc1:80: [sm1 sm2]\nOverlapping ServiceMonitors found for service/port test/svc2:8080: [sm1 sm2]" : String) ≠
      "multiple issues found:\nOverlapping ServiceMonitors found for service/port test/svc2:8080: [sm1 sm2]\nOverlapping ServiceMonitors found for service/port test/svc1:80: [sm1 sm2]" :=
  ⟨rfl, rfl, rfl, by decide⟩

/-- C9: when one monitor list call returns NotFound — which leaves the typed
client's list pointer nil — while the other returns monitors, the emptiness
guard passes and the loop over the nil list's Items dereferences the nil
pointer: the claimed non-nil invariant fails in exactly the case it names.
Both directions panic. -/
theorem runOverlappingV1_nil_deref :
    runOverlappingV1 ⟨ListOutcome.notFound,
        ListOutcome.ok [⟨"test", "pm1", ⟨[], []⟩, ["metrics"]⟩], [], []⟩ [] [] =
      RunOutcome.panicked nilDerefMsg ∧
    runOverlappingV1 ⟨ListOutcome.ok smsOv, ListOutcome.notFound, servicesOv1, []⟩ [] [] =
      RunOutcome.panicked nilDerefMsg :=
  ⟨rfl, rfl⟩

/-- C3: the `missingVerbs` accumulator is declared outside the rule loop and
never reset, so a verb missing from an earlier rule leaks into the finding of
a later rule. Concretely, a role whose first rule grants only list and watch
and whose second rule grants get, list and watch produces TWO findings, both
naming get — the second one attached to the rule that does grant get. The
claim predicts a single finding naming get for the first rule only. -/
theorem checkClusterRoleRules_leaks_missing_verbs :
    clusterRoleErrs "prometheus"
        ⟨[⟨["monitoring.coreos.com"], ["pods"], ["list", "watch"], []⟩,
          ⟨["monitoring.coreos.com"], ["nodes"], ["get", "list", "watch"], []⟩]⟩ =
      ["ClusterRole prometheus is missing necessary verbs for APIGroups: [get]",
       "ClusterRole prometheus is missing necessary verbs for APIGroups: [get]"] ∧
    (["get", "list", "watch"] : List String).contains "get" = true := by
  constructor
  · rfl
  · rfl

end Poctl
